import Mathlib

/-!
# GPS-disciplined OXCO firmware (GPSDO_v3.c): a shallow embedding

This file embeds, in Lean, the discipline-loop core of the GPSDO firmware:

* the 32-bit tick composition of the capture ISR (`extendTick`),
* the PPS capture ISR `ISR(TIMER1_CAPT_vect)` (`captureISR`),
* the GPS-fix gate at the tail of `handleGPS` (`handleGPSUpdate`),
* the foreground loop body of `main` (`fgStep`),
* the DAC write suppression (`writeDacValue`) and the boot-time
  initialization of the trim state (`bootInit`).

Conventions used throughout:

* C `long` (32-bit) arithmetic is modelled as exact `Int` arithmetic with
  C's truncating division `Int.tdiv`; the claims under study stay far from
  the 2^31 boundary, and every theorem that needs a range carries it as an
  explicit hypothesis.
* Narrowing conversions that matter at 16 bits are modelled explicitly:
  `toInt16` is the AVR conversion to the 16-bit `int` type, and `absAVR`
  is the avr-libc `abs`, which takes an `int` argument, so a `long`
  argument is first truncated to 16 bits (the source calls `abs` on
  `long` values `delta`, `sample_drift` and `current_error`).
* `unsigned` wraparound is written with `% 2^16` / `% 2^32` on `Nat`.
-/

/-- Conversion of a mathematical integer to the AVR 16-bit `int` type
(two's complement wraparound). -/
def toInt16 (x : Int) : Int := (x + 32768) % 65536 - 32768

/-- Conversion of a mathematical integer to the AVR 32-bit `long` type
(two's complement wraparound). -/
def toInt32 (x : Int) : Int := (x + 2147483648) % 4294967296 - 2147483648

/-- The avr-libc `abs`: the prototype is `int abs(int)`, so the argument is
first converted to the 16-bit `int` type; `abs` of `-32768` wraps back to
`-32768` (two's complement negation overflow, as produced by avr-gcc). -/
def absAVR (x : Int) : Int :=
  if toInt16 x = -32768 then -32768 else ((toInt16 x).natAbs : Int)

/-- Tick composition performed at the top of `ISR(TIMER1_CAPT_vect)`
(GPSDO_v3.c lines 230-234): the captured 16 low bits are combined with the
software high half `timer_hibits`; if a timer-overflow interrupt is pending
(`TIFR1 & _BV(TOV1)`) and the captured low bits are below `0x8000`, the
high half is incremented locally (modulo 2^16: `timer_hibits` is a 16-bit
`unsigned int`). -/
def extendTick (pending : Bool) (hibits low : Nat) : Nat :=
  (if pending ∧ low < 32768 then (hibits + 1) % 65536 else hibits) * 65536 + low

/-- `writeDacValue` (GPSDO_v3.c lines 173-200), abstracted over the SPI
bit-banging: given the requested word and the `last_dac_value` shadow
register, it returns the new shadow register and whether a physical SPI
transfer to the DAC took place.  The write is suppressed exactly when the
requested word equals the last word written. -/
def writeDacValue (value last : Nat) : Nat × Bool :=
  if value = last then (last, false) else (value, true)

/-- The global (and `static`-local) state of the firmware that the
discipline loop reads and writes.  Field names follow the C globals;
`last_timer_val` is the `static` local of the capture ISR,
`last_pps_count` / `last_sample_count` are the `static` locals of the main
loop, `eeprom` is the 16-bit non-volatile word at `EE_TRIM_LOC`. -/
structure Sys where
  last_timer_val : Nat
  last_adc_value : Nat
  gps_status : Nat
  pps_count : Nat
  sample_count : Nat
  sample_window_pos : Nat
  valid_samples : Int
  sample_buffer : List Int
  erroneous_delta : Int
  total_error : Int
  phase_error_sum : Int
  phase_error_count : Int
  lock : Nat
  last_pps_count : Nat
  last_sample_count : Nat
  trim_percent : Int
  last_dac_value : Nat
  eeprom : Nat
  deriving Repr, DecidableEq

/-- The signed window delta computed at a window close (GPSDO_v3.c lines
253-257): `time_span = timer_val - last_timer_val` in 32-bit unsigned
arithmetic, then `delta = time_span - SAMPLE_SECONDS * NOMINAL_CLOCK` as a
32-bit signed `long`. -/
def deltaOf (last timer_val : Nat) : Int :=
  toInt32 ((((timer_val + 4294967296 - last) % 4294967296 : Nat) : Int) - 250000000)

/-- `ISR(TIMER1_CAPT_vect)` (GPSDO_v3.c lines 215-275), with the extended
tick `timer_val` (composed by `extendTick`) and the blocking ADC read
`adc` taken as inputs.  Mirrors the source line by line: store the ADC
reading; if GPS is unlocked, only update the previous-edge tick; otherwise
bump `pps_count`, decrement the window down-counter (an 8-bit unsigned
char), and on window close compute the delta, reject out-of-range deltas
(only when `valid_samples >= 0`), and otherwise feed the skip marker or
the sample buffer, bumping `sample_count`. -/
def captureISR (s : Sys) (timer_val adc : Nat) : Sys :=
  let s0 := { s with last_adc_value := adc }
  if s0.gps_status % 2 = 0 then
    { s0 with last_timer_val := timer_val }
  else
    let s1 := { s0 with pps_count := s0.pps_count + 1 }
    let pos := (s1.sample_window_pos + 255) % 256
    if 0 < pos then
      { s1 with sample_window_pos := pos }
    else
      let s2 := { s1 with sample_window_pos := 25, last_timer_val := timer_val }
      let delta := deltaOf s.last_timer_val timer_val
      if 2500 < absAVR delta ∧ 0 ≤ s2.valid_samples then
        { s2 with erroneous_delta := delta }
      else
        let s3 :=
          if s2.valid_samples < 0 then
            { s2 with valid_samples := s2.valid_samples + 1 }
          else if s2.valid_samples < 10 then
            { s2 with
                sample_buffer := s2.sample_buffer.set s2.valid_samples.toNat (toInt16 delta),
                valid_samples := s2.valid_samples + 1 }
          else
            { s2 with
                valid_samples := 10,
                sample_buffer := s2.sample_buffer.drop 1 ++ [toInt16 delta] }
        { s3 with sample_count := s3.sample_count + 1 }

/-- The GPS-fix gate at the tail of `handleGPS` (GPSDO_v3.c lines
422-432), after NMEA framing, checksum verification and `$GPGSA` field
extraction have produced the fix bit `valid`.  If the fix state is
unchanged, nothing happens; otherwise `gps_status` is overwritten with the
new bit, and only when the new state is unlocked are the sample window,
the integrator and the lock grade reset. -/
def handleGPSUpdate (valid : Bool) (s : Sys) : Sys :=
  let nv : Nat := if valid then 1 else 0
  if nv = s.gps_status % 2 then s
  else
    let s1 := { s with gps_status := nv }
    if nv = 0 then
      { s1 with valid_samples := -1, sample_window_pos := 25, total_error := 0, lock := 0 }
    else s1

/-- Sum of the `valid_samples` leading entries of the sample buffer
(the loop at GPSDO_v3.c lines 621-632); for `valid_samples ≤ 0` the loop
body never runs and the sum is `0`. -/
def sumSamples (vs : Int) (buf : List Int) : Int := (buf.take vs.toNat).sum

/-- The lock-quality classifier (GPSDO_v3.c lines 651-662). -/
def lockOf (vs sd : Int) : Nat :=
  if vs < 10 then 0
  else if absAVR sd < 1250 then
    if absAVR sd < 125 then
      if absAVR sd < 25 then 3 else 2
    else 1
  else 0

/-- The DAC word computed from the trim state (GPSDO_v3.c line 688):
`(int)(trim_percent / 100) + 0x8000` — C truncating division, the quotient
narrowed to `int` and the addition performed in 16-bit `unsigned int`
arithmetic. -/
def dacWordOf (tp : Int) : Nat := ((tp.tdiv 100 + 32768) % 65536).toNat

/-- The local variables of one main-loop iteration (GPSDO_v3.c lines
614-718), exposed so that theorems can speak about the intermediate
quantities the source computes: `average_phase_error`,
`sample_phase_error`, `sample_drift`, `current_error`, `adj_val`,
`trim_value`, and whether the DAC SPI transfer and the EEPROM update
physically happened in this iteration. -/
structure FgLocals where
  average_phase_error : Int
  sample_phase_error : Int
  sample_drift : Int
  current_error : Int
  adj_val : Int
  trim_value : Nat
  dac_wrote : Bool
  ee_wrote : Bool
  deriving Repr, DecidableEq

/-- Locals of an iteration that exited before the window-update block. -/
def noLocals : FgLocals :=
  { average_phase_error := 0, sample_phase_error := 0, sample_drift := 0,
    current_error := 0, adj_val := 0, trim_value := 0,
    dac_wrote := false, ee_wrote := false }

/-- One pass of the foreground loop body of `main` (GPSDO_v3.c lines
579-723), after the watchdog/LED prologue; diagnostic serial output is
omitted (it writes no modelled state).  Mirrors the source: return if no
new PPS was observed; clear and skip past a pending erroneous delta;
accumulate the phase error; return if no new window sample was observed;
compute the window averages, classify the lock, and — when at least one
valid sample exists — run the PI update, command the DAC and apply the
EEPROM write policy. -/
def fgStep (s : Sys) : Sys × FgLocals :=
  if s.pps_count = s.last_pps_count then (s, noLocals)
  else
    let s1 := { s with last_pps_count := s.pps_count }
    if s1.erroneous_delta ≠ 0 then ({ s1 with erroneous_delta := 0 }, noLocals)
    else
      let s2 := { s1 with
        phase_error_sum := s1.phase_error_sum + toInt16 (512 - (s1.last_adc_value : Int)),
        phase_error_count := s1.phase_error_count + 1 }
      if s2.sample_count = s2.last_sample_count then (s2, noLocals)
      else
        let s3 := { s2 with last_sample_count := s2.sample_count }
        let avg := s3.phase_error_sum.tdiv 25
        let s4 := { s3 with phase_error_sum := 0, phase_error_count := 0 }
        let spe := toInt16 ((avg * 1000).tdiv 512)
        let sd := (sumSamples s4.valid_samples s4.sample_buffer * 10).tdiv 10
        let s5 := { s4 with lock := lockOf s4.valid_samples sd }
        if s5.valid_samples ≤ 0 then
          (s5, { noLocals with
                   average_phase_error := avg, sample_phase_error := spe,
                   sample_drift := sd })
        else
          let ce := 10 * sd + spe.tdiv 14
          let te := s5.total_error + ce
          let adj := ((-1) * (ce * 31400 + te * 13)).tdiv 10000
          let tp := s5.trim_percent - adj
          let tv := dacWordOf tp
          let w := writeDacValue tv s5.last_dac_value
          let s6 := { s5 with total_error := te, trim_percent := tp, last_dac_value := w.1 }
          if absAVR ce < 100 ∧ 75 < absAVR ((s6.eeprom : Int) - (tv : Int)) then
            ({ s6 with eeprom := tv },
             { average_phase_error := avg, sample_phase_error := spe, sample_drift := sd,
               current_error := ce, adj_val := adj, trim_value := tv,
               dac_wrote := w.2, ee_wrote := true })
          else
            (s6,
             { average_phase_error := avg, sample_phase_error := spe, sample_drift := sd,
               current_error := ce, adj_val := adj, trim_value := tv,
               dac_wrote := w.2, ee_wrote := false })

/-- Boot-time initialization of the modelled state (`main`, GPSDO_v3.c
lines 436-534), parametrized by the 16-bit word `ee` read from the
non-volatile trim location: globals are zero-initialized (C statics),
`last_adc_value` is seeded with the midpoint, `last_dac_value` starts at
the DAC's power-up midpoint `0x8000` and is then driven through
`writeDacValue` with the (defaulted) stored trim word, and `trim_percent`
is derived from that word. -/
def bootInit (ee : Nat) : Sys :=
  let tv := if ee = 65535 then 32768 else ee
  { last_timer_val := 0
    last_adc_value := 512
    gps_status := 0
    pps_count := 0
    sample_count := 0
    sample_window_pos := 25
    valid_samples := -1
    sample_buffer := List.replicate 10 0
    erroneous_delta := 0
    total_error := 0
    phase_error_sum := 0
    phase_error_count := 0
    lock := 0
    last_pps_count := 0
    last_sample_count := 0
    trim_percent := ((tv : Int) - 32768) * 100
    last_dac_value := (writeDacValue tv 32768).1
    eeprom := ee }

/-- The events that mutate the modelled state: a PPS capture (with the
extended tick and the ADC reading), a parsed GPS fix update, and one
foreground loop iteration. -/
inductive GEv where
  | cap : Nat → Nat → GEv
  | gpsUpd : Bool → GEv
  | fg : GEv

/-- One event step of the whole system. -/
def sysStep (s : Sys) : GEv → Sys
  | GEv.cap tv adc => captureISR s tv adc
  | GEv.gpsUpd v => handleGPSUpdate v s
  | GEv.fg => (fgStep s).1

/-- A state is reachable if some boot EEPROM word and some event sequence
produce it. -/
def Reachable (s : Sys) : Prop :=
  ∃ ee evs, ee < 65536 ∧ s = List.foldl sysStep (bootInit ee) evs

/-- The inductive state invariant: `valid_samples` is `-1` or in `0..10`,
and whenever GPS is Unlocked the sample/error state holds the reset
values installed by the last unlock (or by boot). -/
def InvAll (s : Sys) : Prop :=
  (s.valid_samples = -1 ∨ (0 ≤ s.valid_samples ∧ s.valid_samples ≤ 10)) ∧
  (s.gps_status % 2 = 0 →
    s.valid_samples = -1 ∧ s.sample_window_pos = 25 ∧ s.total_error = 0 ∧ s.lock = 0)

/-- A convenient concrete locked steady state used by witnesses and
counterexamples. -/
def baseSys : Sys :=
  { last_timer_val := 0
    last_adc_value := 512
    gps_status := 1
    pps_count := 0
    sample_count := 0
    sample_window_pos := 25
    valid_samples := 0
    sample_buffer := List.replicate 10 0
    erroneous_delta := 0
    total_error := 0
    phase_error_sum := 0
    phase_error_count := 0
    lock := 0
    last_pps_count := 0
    last_sample_count := 0
    trim_percent := 0
    last_dac_value := 32768
    eeprom := 32768 }

/-- Concrete state for the C1 counterexample: one valid sample of `-1`
ticks, phase at the midpoint, a fresh PPS and a fresh window sample
pending, everything else at the locked steady state. -/
def cexC1 : Sys :=
  { baseSys with
      pps_count := 1
      sample_count := 1
      valid_samples := 1
      sample_buffer := [-1, 0, 0, 0, 0, 0, 0, 0, 0, 0] }

/-- Concrete state for the C3 counterexample: GPS currently Unlocked, with
a nonzero integrator, about to receive a fix upgrade. -/
def cexC3 : Sys :=
  { baseSys with
      gps_status := 0
      total_error := 7 }

/-- Concrete state for the C4 counterexample: warm-up armed
(`valid_samples = -1`) and the sample window about to close. -/
def cexC4 : Sys :=
  { baseSys with
      sample_window_pos := 1
      valid_samples := -1 }

/-- Concrete state for the C5 counterexample: `valid_samples = 0` and the
sample window about to close (so an out-of-range delta will be routed to
`erroneous_delta`). -/
def cexC5 : Sys :=
  { baseSys with sample_window_pos := 1 }

/-- Concrete state for the C6 counterexample: three accepted samples of
2185 ticks each (every one within `MAX_DELTA`, so squarely inside the
outlier gate's accepted regime), phase at the midpoint, a fresh window
pending.  The controller computes `current_error = 10 * 6555 = 65550`,
whose truncation to the 16-bit `int` is `14`. -/
def cexC6 : Sys :=
  { baseSys with
      pps_count := 1
      sample_count := 1
      valid_samples := 3
      sample_buffer := [2185, 2185, 2185, 0, 0, 0, 0, 0, 0, 0] }

/-- Concrete state for the C6 witness: `current_error` will come out 0 and
the commanded DAC word (32868) differs from the stored word (32768) by
100 > 75, so the EEPROM write fires. -/
def wexC6 : Sys :=
  { baseSys with
      pps_count := 1
      sample_count := 1
      valid_samples := 1
      trim_percent := 10000 }

/-- Concrete state for the C9 witness: a full buffer about to rotate. -/
def wexC9 : Sys :=
  { baseSys with
      sample_window_pos := 1
      valid_samples := 10
      sample_buffer := [1, 2, 3, 4, 5, 6, 7, 8, 9, 10] }

/-! ## Helper lemmas -/

/-- The shadow register after a (possibly suppressed) DAC write always
equals the requested word. -/
theorem writeDacValue_fst (v l : Nat) : (writeDacValue v l).1 = v := by
  unfold writeDacValue
  split <;> simp_all

/-- `toInt16` is the identity on values representable in a 16-bit `int`. -/
theorem toInt16_eq_self {x : Int} (h1 : -32768 ≤ x) (h2 : x ≤ 32767) :
    toInt16 x = x := by
  unfold toInt16
  omega

/-- On values representable in a 16-bit `int` other than `-32768`, the
avr-libc `abs` agrees with the mathematical absolute value. -/
theorem absAVR_eq_natAbs {x : Int} (h : x.natAbs ≤ 32767) :
    absAVR x = (x.natAbs : Int) := by
  have h16 : toInt16 x = x := toInt16_eq_self (by omega) (by omega)
  unfold absAVR
  rw [h16, if_neg (by omega)]

/-! ## Claim C8: DAC write suppression -/

/-- Claim C8 (confirmed).  Requesting a DAC write of a value equal to the
last physically written word performs no physical write; writing the same
word twice in succession (starting from a different last word) emits
exactly one physical write — the first write goes to the hardware and the
second is suppressed. -/
theorem claim_C8 (v last : Nat) (h : v ≠ last) :
    (writeDacValue v v).2 = false ∧
    (writeDacValue v last).2 = true ∧
    (writeDacValue v last).1 = v ∧
    (writeDacValue v (writeDacValue v last).1).2 = false := by
  unfold writeDacValue
  simp [h]

/-- Witness for C8 at `v = 1`, `last = 0`. -/
theorem claim_C8_witness :
    (writeDacValue 1 1).2 = false ∧
    (writeDacValue 1 0).2 = true ∧
    (writeDacValue 1 0).1 = 1 ∧
    (writeDacValue 1 (writeDacValue 1 0).1).2 = false :=
  claim_C8 1 0 (by decide)

/-! ## Claim C7: boot-time trim restore -/

/-- Claim C7 (confirmed).  At boot the 16-bit non-volatile trim word is
read; `0xFFFF` is replaced by the mid-scale default `0x8000`; the DAC is
commanded with the resulting value (the shadow register ends up equal to
it — when the value is exactly the power-up midpoint `0x8000` the
physical SPI transfer is suppressed as per `writeDacValue`, the DAC
already holding that word); and `trim_percent` is initialized to
`(value - 0x8000) * 100`, which is consistent with the DAC word map in
both its truncating (`dacWordOf`, the code's form) and flooring (the
spec's `⌊trim_percent / 100⌋ + 0x8000`) readings, the two coinciding on
this exact multiple of 100. -/
theorem claim_C7 (ee : Nat) (hee : ee < 65536) :
    (bootInit ee).last_dac_value = (if ee = 65535 then 32768 else ee) ∧
    (bootInit ee).trim_percent =
      (((if ee = 65535 then 32768 else ee) : Nat) - 32768 : Int) * 100 ∧
    dacWordOf (bootInit ee).trim_percent = (if ee = 65535 then 32768 else ee) ∧
    ((bootInit ee).trim_percent.fdiv 100 + 32768).toNat
      = (if ee = 65535 then 32768 else ee) := by
  by_cases h : ee = 65535
  · subst h
    exact ⟨by decide, by decide, by decide, by decide⟩
  · have htp : (bootInit ee).trim_percent
        = (((if ee = 65535 then 32768 else ee : Nat) : Int) - 32768) * 100 := rfl
    refine ⟨?_, htp, ?_, ?_⟩
    · show (writeDacValue (if ee = 65535 then 32768 else ee) 32768).1 = _
      rw [writeDacValue_fst]
    · rw [htp]
      unfold dacWordOf
      simp only [if_neg h]
      rw [Int.mul_tdiv_cancel _ (by norm_num)]
      omega
    · rw [htp]
      simp only [if_neg h]
      rw [Int.mul_fdiv_cancel _ (by norm_num)]
      omega

/-- Witness for C7 at the uninitialized-EEPROM input `0xFFFF`. -/
theorem claim_C7_witness :
    (bootInit 65535).last_dac_value = (if 65535 = 65535 then 32768 else 65535) ∧
    (bootInit 65535).trim_percent =
      (((if 65535 = 65535 then 32768 else 65535) : Nat) - 32768 : Int) * 100 ∧
    dacWordOf (bootInit 65535).trim_percent = (if 65535 = 65535 then 32768 else 65535) ∧
    ((bootInit 65535).trim_percent.fdiv 100 + 32768).toNat
      = (if 65535 = 65535 then 32768 else 65535) :=
  claim_C7 65535 (by decide)

/-! ## Claim C10: frame effect of an unlocked PPS capture -/

/-- Claim C10 (confirmed).  A PPS capture while GPS is Unlocked changes
only the previous-edge tick and `last_adc_value` — `pps_count`,
`sample_count`, `sample_buffer`, `valid_samples` and `sample_window_pos`
are untouched (the conclusion is a full record equality); and a
foreground iteration that observes no `pps_count` advance performs no
per-PPS processing at all (it returns the state unchanged). -/
theorem claim_C10 :
    (∀ (s : Sys) (tv adc : Nat), s.gps_status % 2 = 0 →
        captureISR s tv adc = { s with last_timer_val := tv, last_adc_value := adc }) ∧
    (∀ s : Sys, s.pps_count = s.last_pps_count → fgStep s = (s, noLocals)) := by
  constructor
  · intro s tv adc h
    unfold captureISR
    simp [h]
  · intro s h
    unfold fgStep
    rw [if_pos h]

/-- Witness for C10: an unlocked capture at a concrete state, and a
foreground iteration with no pending PPS at a concrete state. -/
theorem claim_C10_witness :
    captureISR { baseSys with gps_status := 0 } 123 456
      = { { baseSys with gps_status := 0 } with last_timer_val := 123, last_adc_value := 456 } ∧
    fgStep baseSys = (baseSys, noLocals) :=
  ⟨claim_C10.1 { baseSys with gps_status := 0 } 123 456 (by decide),
   claim_C10.2 baseSys (by decide)⟩

/-! ## Counterexamples -/

/-- Counterexample to claim C1 as stated.  At `cexC1` the window update
runs with one valid sample (`-1` ticks) and phase at the midpoint; the
controller leaves `trim_percent = -31`, and the word commanded to the DAC
is `0x8000 = 32768` (C truncating division: `(int)(-31 / 100) = 0`),
whereas the claim's `floor(trim_percent / 100) + 0x8000` predicts
`-1 + 0x8000 = 32767`. -/
theorem claim_C1_counterexample :
    (fgStep cexC1).1.trim_percent = -31 ∧
    (fgStep cexC1).1.last_dac_value = 32768 ∧
    (((fgStep cexC1).1.trim_percent).fdiv 100 + 32768).toNat
      ≠ (fgStep cexC1).1.last_dac_value := by
  decide

/-- Counterexample to claim C3 as stated.  At `cexC3` the GPS fix changes
Unlocked → Locked3D (a genuine fix-state change), yet the gate performs
none of the claimed resets: `total_error` stays `7` (the claim says it is
cleared to `0`) and `valid_samples` stays `0` (the claim says it is set to
`-1`).  The reset block runs only on the Locked3D → Unlocked direction. -/
theorem claim_C3_counterexample :
    (1 : Nat) ≠ cexC3.gps_status % 2 ∧
    (handleGPSUpdate true cexC3).gps_status % 2 = 1 ∧
    (handleGPSUpdate true cexC3).total_error ≠ 0 ∧
    (handleGPSUpdate true cexC3).valid_samples ≠ -1 := by
  decide

/-- Counterexample to claim C4 as stated.  At `cexC4` a window closes
while Locked3D with `delta = 3000 > MAX_DELTA` but `valid_samples = -1`:
the rejection guard `abs(delta) > MAX_DELTA && valid_samples >= 0` is
disabled, so the outlier is NOT stored in `erroneous_delta` (it stays
`0`) and it IS counted toward the skip marker (`valid_samples` becomes
`0` and `sample_count` advances), contradicting the claim's parenthetical
"this holds also when valid_samples is -1". -/
theorem claim_C4_counterexample :
    deltaOf cexC4.last_timer_val 250003000 = 3000 ∧
    (captureISR cexC4 250003000 500).valid_samples = 0 ∧
    (captureISR cexC4 250003000 500).erroneous_delta = 0 ∧
    (captureISR cexC4 250003000 500).sample_count = cexC4.sample_count + 1 := by
  decide

/-- Counterexample to claim C5 as stated.  At `cexC5` a PPS edge occurs
while Locked3D (the capture bumps `pps_count`) and closes a window whose
delta (3000) is out of range; the foreground then clears
`erroneous_delta` and skips the iteration, so the phase reading of that
edge (ADC 500, phase error `512 - 500 = 12 ≠ 0`) is never added to
`phase_error_sum` and the count is never incremented — contradicting "for
every PPS edge that occurs while Locked3D ... is added ... and the
accompanying count is incremented". -/
theorem claim_C5_counterexample :
    (captureISR cexC5 250003000 500).pps_count = cexC5.pps_count + 1 ∧
    (captureISR cexC5 250003000 500).gps_status % 2 = 1 ∧
    (fgStep (captureISR cexC5 250003000 500)).1.phase_error_sum = cexC5.phase_error_sum ∧
    (fgStep (captureISR cexC5 250003000 500)).1.phase_error_count = cexC5.phase_error_count ∧
    (512 : Int) - ((captureISR cexC5 250003000 500).last_adc_value : Int) ≠ 0 := by
  decide

/-! ## The foreground window-update path, characterized -/

set_option maxHeartbeats 1000000 in
/-- Characterization of one foreground iteration along the full
window-update path: a new PPS was observed, no erroneous delta is
pending, a new window sample was observed, and at least one valid sample
exists.  The iteration then performs exactly the computation of
GPSDO_v3.c lines 605-723. -/
theorem fgStep_ctrl (s : Sys)
    (hp : s.pps_count ≠ s.last_pps_count)
    (he : s.erroneous_delta = 0)
    (hs : s.sample_count ≠ s.last_sample_count)
    (hvs : 1 ≤ s.valid_samples) :
    fgStep s =
      (let avg := (s.phase_error_sum + toInt16 (512 - (s.last_adc_value : Int))).tdiv 25
       let spe := toInt16 ((avg * 1000).tdiv 512)
       let sd := (sumSamples s.valid_samples s.sample_buffer * 10).tdiv 10
       let ce := 10 * sd + spe.tdiv 14
       let te := s.total_error + ce
       let adj := ((-1) * (ce * 31400 + te * 13)).tdiv 10000
       let tp := s.trim_percent - adj
       let tv := dacWordOf tp
       let ee' := absAVR ce < 100 ∧ 75 < absAVR ((s.eeprom : Int) - (tv : Int))
       ({ s with
            last_pps_count := s.pps_count
            last_sample_count := s.sample_count
            phase_error_sum := 0
            phase_error_count := 0
            lock := lockOf s.valid_samples sd
            total_error := te
            trim_percent := tp
            last_dac_value := tv
            eeprom := if ee' then tv else s.eeprom },
        { average_phase_error := avg
          sample_phase_error := spe
          sample_drift := sd
          current_error := ce
          adj_val := adj
          trim_value := tv
          dac_wrote := (writeDacValue tv s.last_dac_value).2
          ee_wrote := if ee' then true else false })) := by
  have hv0 : ¬ s.valid_samples ≤ 0 := by omega
  simp only [fgStep, hp, he, hs, hv0, writeDacValue_fst, ne_eq, if_false, if_true,
    ite_false, ite_true, not_false_eq_true, not_true_eq_false, reduceIte]
  split <;> rfl

set_option maxHeartbeats 1000000 in
/-- Characterization of a foreground iteration that observes a new PPS
with no pending erroneous delta but no new window sample: it only
accumulates the phase error (GPSDO_v3.c lines 605-611). -/
theorem fgStep_accum (s : Sys)
    (hp : s.pps_count ≠ s.last_pps_count)
    (he : s.erroneous_delta = 0)
    (hs : s.sample_count = s.last_sample_count) :
    fgStep s =
      ({ s with
           last_pps_count := s.pps_count
           phase_error_sum := s.phase_error_sum + toInt16 (512 - (s.last_adc_value : Int))
           phase_error_count := s.phase_error_count + 1 }, noLocals) := by
  simp only [fgStep, hp, he, hs, ne_eq, if_false, if_true, ite_false, ite_true,
    not_false_eq_true, not_true_eq_false, reduceIte]

set_option maxHeartbeats 1000000 in
/-- Characterization of a foreground iteration along the window path with
no valid sample yet (`valid_samples ≤ 0`): the window averages are
computed, the accumulator is zeroed and the lock is classified, but the
controller does not run (GPSDO_v3.c lines 614-665). -/
theorem fgStep_window0 (s : Sys)
    (hp : s.pps_count ≠ s.last_pps_count)
    (he : s.erroneous_delta = 0)
    (hs : s.sample_count ≠ s.last_sample_count)
    (hv : s.valid_samples ≤ 0) :
    fgStep s =
      (let avg := (s.phase_error_sum + toInt16 (512 - (s.last_adc_value : Int))).tdiv 25
       let spe := toInt16 ((avg * 1000).tdiv 512)
       let sd := (sumSamples s.valid_samples s.sample_buffer * 10).tdiv 10
       ({ s with
            last_pps_count := s.pps_count
            last_sample_count := s.sample_count
            phase_error_sum := 0
            phase_error_count := 0
            lock := lockOf s.valid_samples sd },
        { noLocals with
            average_phase_error := avg
            sample_phase_error := spe
            sample_drift := sd })) := by
  simp only [fgStep, hp, he, hs, hv, ne_eq, if_false, if_true, ite_false, ite_true,
    not_false_eq_true, not_true_eq_false, reduceIte]

/-! ## Claim C1: the discipline-controller arithmetic -/

/-- Claim C1, amended (the DAC word uses C truncating division rather
than floor).  For every window update performed with at least one valid
sample while Locked3D, the discipline controller computes exactly:
`sample_drift = S * 10 / K` with `S` the sum of the valid samples and
`K = 10`; `current_error = 10 * sample_drift + sample_phase_error / 14`;
`total_error` is increased by `current_error`;
`adj = DAC_SIGN * (current_error * K_P + total_error * K_I) / 10000` with
`K_P = 31400`, `K_I = 13`, `DAC_SIGN = -1`; `trim_percent` is decreased
by `adj`; and the word commanded to the DAC equals
`trunc(trim_percent / 100) + 0x8000` reduced modulo 2^16, where `trunc`
rounds toward zero (all divisions are C truncating divisions). -/
theorem claim_C1_amended (s : Sys)
    (_hg : s.gps_status % 2 = 1)
    (hp : s.pps_count ≠ s.last_pps_count)
    (he : s.erroneous_delta = 0)
    (hs : s.sample_count ≠ s.last_sample_count)
    (hvs : 1 ≤ s.valid_samples) :
    (fgStep s).2.sample_drift = (sumSamples s.valid_samples s.sample_buffer * 10).tdiv 10 ∧
    (fgStep s).2.current_error
      = 10 * (fgStep s).2.sample_drift + ((fgStep s).2.sample_phase_error).tdiv 14 ∧
    (fgStep s).1.total_error = s.total_error + (fgStep s).2.current_error ∧
    (fgStep s).2.adj_val
      = ((-1) * ((fgStep s).2.current_error * 31400 + (fgStep s).1.total_error * 13)).tdiv 10000 ∧
    (fgStep s).1.trim_percent = s.trim_percent - (fgStep s).2.adj_val ∧
    (fgStep s).2.trim_value = (((fgStep s).1.trim_percent.tdiv 100 + 32768) % 65536).toNat ∧
    (fgStep s).1.last_dac_value = (fgStep s).2.trim_value := by
  rw [fgStep_ctrl s hp he hs hvs]
  exact ⟨rfl, rfl, rfl, rfl, rfl, rfl, rfl⟩

/-- Witness for the amended C1 at the concrete state `cexC1`. -/
theorem claim_C1_witness :
    (fgStep cexC1).2.sample_drift
      = (sumSamples cexC1.valid_samples cexC1.sample_buffer * 10).tdiv 10 ∧
    (fgStep cexC1).2.current_error
      = 10 * (fgStep cexC1).2.sample_drift + ((fgStep cexC1).2.sample_phase_error).tdiv 14 ∧
    (fgStep cexC1).1.total_error = cexC1.total_error + (fgStep cexC1).2.current_error ∧
    (fgStep cexC1).2.adj_val
      = ((-1) * ((fgStep cexC1).2.current_error * 31400
          + (fgStep cexC1).1.total_error * 13)).tdiv 10000 ∧
    (fgStep cexC1).1.trim_percent = cexC1.trim_percent - (fgStep cexC1).2.adj_val ∧
    (fgStep cexC1).2.trim_value
      = (((fgStep cexC1).1.trim_percent.tdiv 100 + 32768) % 65536).toNat ∧
    (fgStep cexC1).1.last_dac_value = (fgStep cexC1).2.trim_value :=
  claim_C1_amended cexC1 (by decide) (by decide) (by decide) (by decide) (by decide)

/-! ## Claim C6: the EEPROM write gate -/

/-- Counterexample to claim C6 as stated.  At `cexC6` the window update
runs with three accepted samples of 2185 ticks each: the controller
computes `current_error = 65550`, so `|current_error| >= 100` and the
claim says the non-volatile storage must be left unchanged regardless of
the stored-word delta.  But the source's gate calls the avr-libc `abs`,
whose `int` prototype truncates `65550` to the 16-bit value `14 < 100`;
the stored-word delta is `|32768 - 34827| = 2059 > 75`, so the program
writes the EEPROM (`32768` becomes `34827`). -/
theorem claim_C6_counterexample :
    (fgStep cexC6).2.current_error = 65550 ∧
    100 ≤ ((fgStep cexC6).2.current_error).natAbs ∧
    (fgStep cexC6).2.ee_wrote = true ∧
    cexC6.eeprom = 32768 ∧
    (fgStep cexC6).1.eeprom = 34827 ∧
    (fgStep cexC6).1.eeprom ≠ cexC6.eeprom := by
  decide

/-- Claim C6, amended (the gate is evaluated through the 16-bit `abs`).
After every window update (the full controller path), the non-volatile
trim word is written — with the current `trim_value` — if and only if
both `abs16(current_error) < 100` and
`abs16(stored_word - trim_value) > EE_UPDATE_OFFSET = 75`, where `abs16`
(`absAVR`) truncates its argument to the 16-bit `int` type before taking
the absolute value; when either condition fails the storage is left
unchanged.  Whenever both `|current_error|` and
`|stored_word - trim_value|` are at most 32767, this is exactly the
originally claimed magnitude condition (third conjunct); for larger
`current_error` the magnitude wraps modulo 2^16 (e.g. 65550 is seen as
14) and a write can fire even though `|current_error| >= 100`. -/
theorem claim_C6_amended (s : Sys)
    (hp : s.pps_count ≠ s.last_pps_count)
    (he : s.erroneous_delta = 0)
    (hs : s.sample_count ≠ s.last_sample_count)
    (hvs : 1 ≤ s.valid_samples) :
    ((fgStep s).1.eeprom
      = if absAVR ((fgStep s).2.current_error) < 100 ∧
           75 < absAVR ((s.eeprom : Int) - ((fgStep s).2.trim_value : Int))
        then (fgStep s).2.trim_value else s.eeprom) ∧
    ((fgStep s).2.ee_wrote = true ↔
      (absAVR ((fgStep s).2.current_error) < 100 ∧
       75 < absAVR ((s.eeprom : Int) - ((fgStep s).2.trim_value : Int)))) ∧
    (((fgStep s).2.current_error).natAbs ≤ 32767 →
     ((s.eeprom : Int) - ((fgStep s).2.trim_value : Int)).natAbs ≤ 32767 →
      ((fgStep s).2.ee_wrote = true ↔
        ((((fgStep s).2.current_error).natAbs : Int) < 100 ∧
         75 < ((((s.eeprom : Int)) - ((fgStep s).2.trim_value : Int)).natAbs : Int)))) := by
  rw [fgStep_ctrl s hp he hs hvs]
  dsimp only
  refine ⟨rfl, ?_, ?_⟩
  · split <;> simp_all
  · intro h1 h2
    rw [absAVR_eq_natAbs h1, absAVR_eq_natAbs h2]
    split <;> simp_all

/-- Witness for the amended C6 at a concrete state where the write fires
inside the 16-bit regime: `current_error = 0` and the stored word differs
from the commanded word by 100 > 75. -/
theorem claim_C6_witness :
    ((fgStep wexC6).1.eeprom
      = if absAVR ((fgStep wexC6).2.current_error) < 100 ∧
           75 < absAVR ((wexC6.eeprom : Int) - ((fgStep wexC6).2.trim_value : Int))
        then (fgStep wexC6).2.trim_value else wexC6.eeprom) ∧
    ((fgStep wexC6).2.ee_wrote = true ↔
      (absAVR ((fgStep wexC6).2.current_error) < 100 ∧
       75 < absAVR ((wexC6.eeprom : Int) - ((fgStep wexC6).2.trim_value : Int)))) ∧
    ((fgStep wexC6).2.ee_wrote = true ↔
      ((((fgStep wexC6).2.current_error).natAbs : Int) < 100 ∧
       75 < ((((wexC6.eeprom : Int)) - ((fgStep wexC6).2.trim_value : Int)).natAbs : Int))) :=
  have h := claim_C6_amended wexC6 (by decide) (by decide) (by decide) (by decide)
  ⟨h.1, h.2.1, h.2.2 (by decide) (by decide)⟩

/-! ## Claim C5: the phase sampler -/

/-- Claim C5, amended.  For every PPS event the foreground observes
(`pps_count` advanced) with no erroneous delta pending, the quantity
(midpoint 512 minus the latest phase-detector ADC reading) is added to
`phase_error_sum` and the count is incremented; and every time the
foreground additionally observes an advanced `sample_count` (a window
closed with its sample accepted or consumed by the skip marker), it
computes `average_phase_error = phase_error_sum / 25` (the sum including
the current edge's term, C truncating division), sets
`sample_phase_error = average_phase_error * 1000 / 512`, and zeroes the
accumulator (sum and count).  The accumulation equation needs the ADC
reading to be a 10-bit value, and the rescaling equation needs the
accumulated sum to be small enough that the 16-bit store of
`sample_phase_error` does not truncate. -/
theorem claim_C5_amended (s : Sys)
    (hp : s.pps_count ≠ s.last_pps_count)
    (he : s.erroneous_delta = 0)
    (hadc : s.last_adc_value ≤ 1023) :
    (s.sample_count = s.last_sample_count →
       (fgStep s).1.phase_error_sum
         = s.phase_error_sum + (512 - (s.last_adc_value : Int)) ∧
       (fgStep s).1.phase_error_count = s.phase_error_count + 1) ∧
    (s.sample_count ≠ s.last_sample_count →
     (s.phase_error_sum).natAbs ≤ 400000 →
       (fgStep s).2.average_phase_error
         = (s.phase_error_sum + (512 - (s.last_adc_value : Int))).tdiv 25 ∧
       (fgStep s).2.sample_phase_error
         = ((fgStep s).2.average_phase_error * 1000).tdiv 512 ∧
       (fgStep s).1.phase_error_sum = 0 ∧
       (fgStep s).1.phase_error_count = 0) := by
  have h16 : toInt16 (512 - (s.last_adc_value : Int)) = 512 - (s.last_adc_value : Int) :=
    toInt16_eq_self (by omega) (by omega)
  constructor
  · intro hseq
    rw [fgStep_accum s hp he hseq, h16]
    exact ⟨rfl, rfl⟩
  · intro hs hsum
    have hspe : toInt16 ((((s.phase_error_sum
          + (512 - (s.last_adc_value : Int))).tdiv 25) * 1000).tdiv 512)
        = ((((s.phase_error_sum
          + (512 - (s.last_adc_value : Int))).tdiv 25) * 1000).tdiv 512) := by
      have h1 : (s.phase_error_sum + (512 - (s.last_adc_value : Int))).natAbs
          ≤ 400512 := by omega
      have h2 : ((s.phase_error_sum
          + (512 - (s.last_adc_value : Int))).tdiv 25).natAbs
          = (s.phase_error_sum + (512 - (s.last_adc_value : Int))).natAbs / 25 := by
        rw [Int.natAbs_tdiv]; rfl
      have h3 : ((((s.phase_error_sum
          + (512 - (s.last_adc_value : Int))).tdiv 25) * 1000).tdiv 512).natAbs
          = (((s.phase_error_sum
          + (512 - (s.last_adc_value : Int))).tdiv 25).natAbs * 1000) / 512 := by
        rw [Int.natAbs_tdiv, Int.natAbs_mul]; rfl
      exact toInt16_eq_self (by omega) (by omega)
    rcases le_or_lt s.valid_samples 0 with hv | hv
    · rw [fgStep_window0 s hp he hs hv]
      dsimp only
      simp only [h16]
      rw [hspe]
      refine ⟨?_, ?_, ?_, ?_⟩ <;> trivial
    · rw [fgStep_ctrl s hp he hs (by omega)]
      dsimp only
      simp only [h16]
      rw [hspe]
      refine ⟨?_, ?_, ?_, ?_⟩ <;> trivial

/-- Witness for the amended C5, instantiated at a concrete state on the
accumulation-only path (part one): a fresh PPS, no pending erroneous
delta and no new window sample. -/
theorem claim_C5_witness :
    (fgStep { baseSys with pps_count := 1, last_adc_value := 500 }).1.phase_error_sum
      = ({ baseSys with pps_count := 1, last_adc_value := 500 } : Sys).phase_error_sum
        + (512 - (({ baseSys with pps_count := 1, last_adc_value := 500 } : Sys).last_adc_value : Int)) ∧
    (fgStep { baseSys with pps_count := 1, last_adc_value := 500 }).1.phase_error_count
      = ({ baseSys with pps_count := 1, last_adc_value := 500 } : Sys).phase_error_count + 1 :=
  (claim_C5_amended { baseSys with pps_count := 1, last_adc_value := 500 }
    (by decide) (by decide) (by decide)).1 (by decide)

/-! ## The system invariant -/

/-- A foreground iteration never changes `valid_samples`, `gps_status` or
`sample_window_pos`. -/
theorem fgStep_fix_fields (s : Sys) :
    (fgStep s).1.valid_samples = s.valid_samples ∧
    (fgStep s).1.gps_status = s.gps_status ∧
    (fgStep s).1.sample_window_pos = s.sample_window_pos := by
  unfold fgStep
  dsimp only
  repeat' split
  all_goals exact ⟨rfl, rfl, rfl⟩

/-- When the skip marker is armed (`valid_samples = -1`), a foreground
iteration leaves `total_error` unchanged and either leaves `lock`
unchanged or clears it (the classifier maps a non-full buffer to 0). -/
theorem fgStep_unlocked_fields (s : Sys) (hvs : s.valid_samples = -1) :
    (fgStep s).1.total_error = s.total_error ∧
    ((fgStep s).1.lock = s.lock ∨ (fgStep s).1.lock = 0) := by
  unfold fgStep
  dsimp only
  repeat' split
  all_goals first
    | exact ⟨rfl, Or.inl rfl⟩
    | (refine ⟨rfl, Or.inr ?_⟩; simp [hvs, lockOf])
    | (exfalso; simp_all)

/-- The invariant holds at boot. -/
theorem invAll_boot (ee : Nat) : InvAll (bootInit ee) :=
  ⟨Or.inl rfl, fun _ => ⟨rfl, rfl, rfl, rfl⟩⟩

/-- The invariant is preserved by the capture ISR. -/
theorem invAll_cap (s : Sys) (tv adc : Nat) (h : InvAll s) :
    InvAll (captureISR s tv adc) := by
  unfold InvAll at h ⊢
  unfold captureISR
  dsimp only
  repeat' split
  all_goals simp_all
  all_goals omega

/-- The invariant is preserved by the GPS-fix gate. -/
theorem invAll_gps (v : Bool) (s : Sys) (h : InvAll s) :
    InvAll (handleGPSUpdate v s) := by
  unfold InvAll at h ⊢
  unfold handleGPSUpdate
  dsimp only
  repeat' split
  all_goals simp_all

/-- The invariant is preserved by a foreground iteration. -/
theorem invAll_fg (s : Sys) (h : InvAll s) : InvAll ((fgStep s).1) := by
  obtain ⟨h1, h2⟩ := h
  obtain ⟨hv, hg, hw⟩ := fgStep_fix_fields s
  constructor
  · rw [hv]; exact h1
  · intro hgz
    rw [hg] at hgz
    obtain ⟨e1, e2, e3, e4⟩ := h2 hgz
    obtain ⟨t1, t2⟩ := fgStep_unlocked_fields s e1
    refine ⟨by rw [hv, e1], by rw [hw, e2], by rw [t1, e3], ?_⟩
    rcases t2 with t2 | t2
    · rw [t2, e4]
    · exact t2

/-- The invariant is preserved by every event. -/
theorem invAll_step (s : Sys) (e : GEv) (h : InvAll s) : InvAll (sysStep s e) := by
  cases e with
  | cap tv adc => exact invAll_cap s tv adc h
  | gpsUpd v => exact invAll_gps v s h
  | fg => exact invAll_fg s h

/-- The invariant holds along any event sequence. -/
theorem invAll_foldl (evs : List GEv) :
    ∀ t : Sys, InvAll t → InvAll (List.foldl sysStep t evs) := by
  induction evs with
  | nil => intro t h; simpa using h
  | cons e rest ih =>
      intro t h
      simpa using ih (sysStep t e) (invAll_step t e h)

/-- The invariant holds in every reachable state. -/
theorem invAll_reach (s : Sys) (h : Reachable s) : InvAll s := by
  obtain ⟨ee, evs, _, rfl⟩ := h
  exact invAll_foldl evs (bootInit ee) (invAll_boot ee)

/-! ## Claim C3: the GPS-fix gate resets -/

/-- Claim C3, amended.  Only a fix update in the Locked3D → Unlocked
direction performs the reset: it sets `valid_samples := -1`,
`sample_window_pos := 25`, `total_error := 0` and `lock := 0`, leaving
`trim_percent` and the DAC word unchanged (full record equality).  An
Unlocked → Locked3D update changes only `gps_status`.  In every reachable
Unlocked state those four variables already hold the reset values — from
the previous unlock or from boot — so they still hold them right after
the upgrade, but the gate itself does not write them on that direction. -/
theorem claim_C3_amended :
    (∀ s : Sys, s.gps_status % 2 = 1 →
      handleGPSUpdate false s
        = { s with gps_status := 0, valid_samples := -1, sample_window_pos := 25,
                   total_error := 0, lock := 0 }) ∧
    (∀ s : Sys, s.gps_status % 2 = 0 →
      handleGPSUpdate true s = { s with gps_status := 1 }) ∧
    (∀ s : Sys, Reachable s → s.gps_status % 2 = 0 →
      s.valid_samples = -1 ∧ s.sample_window_pos = 25 ∧
      s.total_error = 0 ∧ s.lock = 0) := by
  refine ⟨?_, ?_, ?_⟩
  · intro s h1
    simp [handleGPSUpdate, h1]
  · intro s h0
    simp [handleGPSUpdate, h0]
  · intro s hr hg
    exact (invAll_reach s hr).2 hg

/-- Witness for the amended C3: the downgrade reset at `baseSys`, the
upgrade at an unlocked variant of `baseSys`, and the reachable-state
clause at the boot state. -/
theorem claim_C3_witness :
    handleGPSUpdate false baseSys
      = { baseSys with gps_status := 0, valid_samples := -1, sample_window_pos := 25,
                       total_error := 0, lock := 0 } ∧
    handleGPSUpdate true { baseSys with gps_status := 0 }
      = { { baseSys with gps_status := 0 } with gps_status := 1 } ∧
    ((bootInit 0).valid_samples = -1 ∧ (bootInit 0).sample_window_pos = 25 ∧
     (bootInit 0).total_error = 0 ∧ (bootInit 0).lock = 0) :=
  ⟨claim_C3_amended.1 baseSys (by decide),
   claim_C3_amended.2.1 { baseSys with gps_status := 0 } (by decide),
   claim_C3_amended.2.2 (bootInit 0) ⟨0, [], by decide, rfl⟩ (by decide)⟩

/-! ## Claim C9: the sample-buffer invariant and rotation -/

/-- Claim C9 (confirmed).  In every reachable state `valid_samples` is the
distinguished value `-1` or lies in `0..10`; and when the buffer already
holds 10 samples, inserting the 11th (an accepted window delta) rotates
the buffer — it becomes the old buffer without its oldest (head) entry,
with the new sample appended at the end, so it holds exactly the 10 most
recent accepted samples in oldest-first order. -/
theorem claim_C9 :
    (∀ s : Sys, Reachable s →
      s.valid_samples = -1 ∨ (0 ≤ s.valid_samples ∧ s.valid_samples ≤ 10)) ∧
    (∀ (s : Sys) (tv adc : Nat),
      s.gps_status % 2 = 1 →
      s.sample_window_pos = 1 →
      s.valid_samples = 10 →
      s.sample_buffer.length = 10 →
      ¬ 2500 < absAVR (deltaOf s.last_timer_val tv) →
      (captureISR s tv adc).sample_buffer
          = s.sample_buffer.drop 1 ++ [toInt16 (deltaOf s.last_timer_val tv)] ∧
      (captureISR s tv adc).valid_samples = 10 ∧
      (captureISR s tv adc).sample_count = s.sample_count + 1) := by
  constructor
  · intro s hr
    exact (invAll_reach s hr).1
  · intro s tv adc hg hw hvs _hlen hacc
    simp [captureISR, hg, hw, hvs, hacc]

/-- Witness for C9: the invariant at the boot state, and the rotation on
a concrete full buffer receiving an in-range delta of 0. -/
theorem claim_C9_witness :
    ((bootInit 0).valid_samples = -1 ∨
      (0 ≤ (bootInit 0).valid_samples ∧ (bootInit 0).valid_samples ≤ 10)) ∧
    ((captureISR wexC9 250000000 500).sample_buffer
        = wexC9.sample_buffer.drop 1 ++ [toInt16 (deltaOf wexC9.last_timer_val 250000000)] ∧
     (captureISR wexC9 250000000 500).valid_samples = 10 ∧
     (captureISR wexC9 250000000 500).sample_count = wexC9.sample_count + 1) :=
  ⟨claim_C9.1 (bootInit 0) ⟨0, [], by decide, rfl⟩,
   claim_C9.2 wexC9 250000000 500 (by decide) (by decide) (by decide) (by decide) (by decide)⟩

/-! ## Claim C4: outlier rejection -/

/-- Claim C4, amended.  For every window that closes while Locked3D with
`valid_samples ≥ 0` and `MAX_DELTA < |delta| ≤ 32767` (the guard computes
`abs` in a 16-bit `int`), the delta is stored in `erroneous_delta` and the
window is discarded — sample buffer, `valid_samples`, `total_error` and
`sample_count` all unchanged (full record equality).  With
`valid_samples ≥ 0`, a window with `|delta| ≤ MAX_DELTA` — in particular
`|delta| = MAX_DELTA` exactly — is accepted (counted, `erroneous_delta`
untouched), so `MAX_DELTA + 1` is rejected and `MAX_DELTA` accepted.
When `valid_samples = -1` the rejection guard is disabled: the window,
outlier or not, is consumed by the skip marker (`valid_samples` becomes
0), `erroneous_delta` is NOT written, and the buffer is untouched. -/
theorem claim_C4_amended (s : Sys) (tv adc : Nat)
    (hg : s.gps_status % 2 = 1)
    (hw : s.sample_window_pos = 1) :
    (0 ≤ s.valid_samples →
     2500 < (deltaOf s.last_timer_val tv).natAbs →
     (deltaOf s.last_timer_val tv).natAbs ≤ 32767 →
      captureISR s tv adc
        = { s with last_adc_value := adc, pps_count := s.pps_count + 1,
                   sample_window_pos := 25, last_timer_val := tv,
                   erroneous_delta := deltaOf s.last_timer_val tv }) ∧
    (0 ≤ s.valid_samples →
     (deltaOf s.last_timer_val tv).natAbs ≤ 2500 →
      (captureISR s tv adc).sample_count = s.sample_count + 1 ∧
      (captureISR s tv adc).erroneous_delta = s.erroneous_delta) ∧
    (s.valid_samples = -1 →
      (captureISR s tv adc).valid_samples = 0 ∧
      (captureISR s tv adc).erroneous_delta = s.erroneous_delta ∧
      (captureISR s tv adc).sample_buffer = s.sample_buffer ∧
      (captureISR s tv adc).sample_count = s.sample_count + 1 ∧
      (captureISR s tv adc).total_error = s.total_error) := by
  refine ⟨?_, ?_, ?_⟩
  · intro h0 habs hle
    have ha : 2500 < absAVR (deltaOf s.last_timer_val tv) := by
      rw [absAVR_eq_natAbs hle]; omega
    simp [captureISR, hg, hw, ha, h0]
  · intro h0 hle
    have hb : ¬ 2500 < absAVR (deltaOf s.last_timer_val tv) := by
      rw [absAVR_eq_natAbs (le_trans hle (by norm_num))]; omega
    simp only [captureISR, hg, hw]
    rw [if_neg (by simp)]
    rw [if_neg (by simp [hw])]
    rw [if_neg (fun hc => hb hc.1)]
    split
    · exact ⟨rfl, rfl⟩
    · split
      · exact ⟨rfl, rfl⟩
      · exact ⟨rfl, rfl⟩
  · intro hneg
    simp [captureISR, hg, hw, hneg]

/-- Witness for the amended C4: rejection at `delta = 2501`, acceptance at
the boundary `delta = 2500`, and skip-marker consumption of an outlier
(`delta = 3000`) while `valid_samples = -1`. -/
theorem claim_C4_witness :
    (captureISR { baseSys with sample_window_pos := 1 } 250002501 500
      = { { baseSys with sample_window_pos := 1 } with
            last_adc_value := 500
            pps_count := ({ baseSys with sample_window_pos := 1 } : Sys).pps_count + 1
            sample_window_pos := 25
            last_timer_val := 250002501
            erroneous_delta :=
              deltaOf ({ baseSys with sample_window_pos := 1 } : Sys).last_timer_val 250002501 }) ∧
    ((captureISR { baseSys with sample_window_pos := 1 } 250002500 500).sample_count
        = ({ baseSys with sample_window_pos := 1 } : Sys).sample_count + 1 ∧
     (captureISR { baseSys with sample_window_pos := 1 } 250002500 500).erroneous_delta
        = ({ baseSys with sample_window_pos := 1 } : Sys).erroneous_delta) ∧
    ((captureISR cexC4 250003000 500).valid_samples = 0 ∧
     (captureISR cexC4 250003000 500).erroneous_delta = cexC4.erroneous_delta ∧
     (captureISR cexC4 250003000 500).sample_buffer = cexC4.sample_buffer ∧
     (captureISR cexC4 250003000 500).sample_count = cexC4.sample_count + 1 ∧
     (captureISR cexC4 250003000 500).total_error = cexC4.total_error) :=
  ⟨(claim_C4_amended { baseSys with sample_window_pos := 1 } 250002501 500
      (by decide) (by decide)).1 (by decide) (by decide) (by decide),
   (claim_C4_amended { baseSys with sample_window_pos := 1 } 250002500 500
      (by decide) (by decide)).2.1 (by decide) (by decide),
   (claim_C4_amended cexC4 250003000 500 (by decide) (by decide)).2.2 (by decide)⟩

/-! ## Claim C2: the overflow/capture race -/

/-- Claim C2 (confirmed).  Model: `t` is the true 32-bit extended tick at
the instant of the PPS capture (the overflow numbered `k ≥ 1` occurs when
the counter wraps at tick `65536 * k`, so `t % 65536` are the captured low
bits and `t / 65536` counts the overflows that occurred up to the
capture); the ISR reads the pending flag at service time `s ≥ t`;
`procd` is the number of overflow interrupts already processed, so the
stored high half is `procd` and the pending flag is
`procd < s / 65536`.  Hypotheses: the capture is serviced within 32768
ticks; no overflow after the capture can have been processed before the
capture ISR runs (capture has interrupt priority), i.e.
`procd ≤ t / 65536`; and any overflow at least 32768 ticks old at service
time has been processed.  Then the fixed rule of GPSDO_v3.c lines 230-234
— increment the stored high half exactly when the flag is pending and the
low bits are below 0x8000 — reconstructs the exact tick `t`: neither a
65536-tick excess nor a 65536-tick deficit. -/
theorem claim_C2 (t s procd : Nat)
    (ht : t < 4294967296)
    (hts : t ≤ s)
    (hlat : s < t + 32768)
    (hpr : procd ≤ t / 65536)
    (hsrv : ∀ k, 65536 * k + 32768 ≤ s → k ≤ procd) :
    extendTick (decide (procd < s / 65536)) procd (t % 65536) = t := by
  have hdm := Nat.div_add_mod t 65536
  have hdm2 := Nat.div_add_mod s 65536
  have hmod : t % 65536 < 65536 := Nat.mod_lt _ (by norm_num)
  have hmod2 : s % 65536 < 65536 := Nat.mod_lt _ (by norm_num)
  have hq1 : t / 65536 ≤ procd + 1 := by
    rcases Nat.eq_zero_or_pos (t / 65536) with h | h
    · omega
    · have := hsrv (t / 65536 - 1) (by omega)
      omega
  unfold extendTick
  by_cases hpend : procd < s / 65536
  · by_cases hlow : t % 65536 < 32768
    · rw [if_pos ⟨by simpa using hpend, hlow⟩]
      have hcase : procd + 1 = t / 65536 ∨ procd = t / 65536 := by omega
      rcases hcase with hc | hc
      · have hp65 : procd + 1 < 65536 := by omega
        rw [Nat.mod_eq_of_lt hp65]
        omega
      · exfalso
        omega
    · rw [if_neg (fun hcon => hlow hcon.2)]
      rcases le_or_lt (65536 * (t / 65536) + 32768) s with hx | hx
      · have := hsrv (t / 65536) hx
        omega
      · omega
  · rw [if_neg (fun hcon => hpend (of_decide_eq_true hcon.1))]
    have hdiv : t / 65536 ≤ s / 65536 := Nat.div_le_div_right hts
    omega

/-- Witness for C2 at the exact race: the PPS is captured in the same
cycle as an overflow (`t = 65536`, low bits 0), the overflow interrupt
has not yet been processed (`procd = 0`) and its flag is pending at
service time; the rule yields the correct tick 65536. -/
theorem claim_C2_witness : extendTick true 0 0 = 65536 := by
  have h := claim_C2 65536 65536 0 (by norm_num) (le_refl _) (by norm_num)
    (by norm_num) (fun k hk => by omega)
  simpa using h
